import Mathlib

/-!
Shallow embedding of `security_monkey/auditors/security_group.py`.

The module audits one security-group snapshot with nine `check_*` functions.
Each check computes a severity multiplier from the reporting mode and the
item's in-use flag, walks the item's rules in order, and records findings
(severity, tag, optional notes).  CIDR strings are parsed with the `ipaddr`
library; a parse failure raises an exception, which we model by returning
`none` from the check (`Option` is our exception monad).
-/

namespace SecMonkey

/-- Value of an unsigned decimal digit string. -/
def digitsVal (l : List Char) : Nat :=
  l.foldl (fun n c => n * 10 + (c.toNat - 48)) 0

/-- CPython `int()` on an unsigned decimal string (also the accepting set of
octet and mask strings inside the `ipaddr` library): every character a digit,
at least one character. -/
def strNat (s : String) : Option Nat :=
  if s.data ≠ [] ∧ s.data.all (fun c => c.isDigit) then some (digitsVal s.data) else none

/-- CPython `int()` additionally accepts a leading minus sign. -/
def pyInt (s : String) : Option Int :=
  if s.data.head? = some '-' then
    Option.map (fun n => -(n : Int)) (strNat (String.mk (s.data.drop 1)))
  else Option.map Int.ofNat (strNat s)

/-- `str.split(sep)` for a one-character separator, as in CPython: the result
always has at least one field and empty fields are preserved. -/
def splitChar (sep : Char) : List Char → List (List Char)
  | [] => [[]]
  | c :: cs =>
    let r := splitChar sep cs
    if c = sep then [] :: r
    else
      match r with
      | [] => [[c]]
      | x :: xs => (c :: x) :: xs

def pySplit (sep : Char) (s : String) : List String :=
  (splitChar sep s.data).map String.mk

/-- An IPv4 network as the `ipaddr` library keeps it: the literal address and
the mask length (host bits are preserved on parse and masked on demand). -/
structure IPNetwork where
  addr : Nat
  mlen : Nat
deriving DecidableEq

def blockSize (n : IPNetwork) : Nat := 2 ^ (32 - n.mlen)

/-- `ipaddr` `network` property: the address with host bits cleared. -/
def netLow (n : IPNetwork) : Nat := n.addr / blockSize n * blockSize n

/-- `ipaddr` `broadcast` property: the address with host bits set. -/
def netHigh (n : IPNetwork) : Nat := netLow n + (blockSize n - 1)

/-- `inner in outer` on `ipaddr` networks: range containment, equal ranges
included. -/
def netContains (outer inner : IPNetwork) : Bool :=
  decide (netLow outer ≤ netLow inner) && decide (netHigh inner ≤ netHigh outer)

/-- One dotted-quad octet: decimal digits, value at most 255. -/
def parseOctet (s : String) : Option Nat :=
  match strNat s with
  | some n => if n ≤ 255 then some n else none
  | none => none

/-- `ipaddr` IPv4 address parsing: exactly four octets. -/
def parseIPv4 (s : String) : Option Nat :=
  match pySplit '.' s with
  | [a, b, c, d] =>
    match parseOctet a, parseOctet b, parseOctet c, parseOctet d with
    | some x, some y, some z, some w => some (((x * 256 + y) * 256 + z) * 256 + w)
    | _, _, _, _ => none
  | _ => none

/-- `ipaddr.IPNetwork` on an IPv4 dotted quad with an optional decimal mask
length; no mask means `/32`; a bad octet, extra slash, or out-of-range mask
raises (here: `none`). -/
def parseIPNetwork (s : String) : Option IPNetwork :=
  match pySplit '/' s with
  | [ip] => Option.map (fun a => IPNetwork.mk a 32) (parseIPv4 ip)
  | [ip, m] =>
    match parseIPv4 ip, strNat m with
    | some a, some p => if p ≤ 32 then some (IPNetwork.mk a p) else none
    | _, _ => none
  | _ => none

/-- One security-group rule, the shape the checks read. `name` is the named
peer used when no CIDR is present. -/
structure Rule where
  ip_protocol : String
  from_port : Int
  to_port : Int
  cidr_ip : Option String
  name : Option String
  rule_type : Option String
deriving DecidableEq

/-- One audited security-group snapshot.  `assigned_to` is the truthiness of
the `assigned_to` config entry (false when absent or empty). -/
structure SGItem where
  vpc_id : Option String
  assigned_to : Bool
  rules : List Rule
deriving DecidableEq

/-- One recorded finding: `add_issue(score, tag, item, notes)` without the
item back-reference. -/
structure Finding where
  score : Nat
  tag : String
  notes : Option String
deriving DecidableEq

/-- Python truthiness of an optional string: `None` and the empty string are
falsy. -/
def truthy : Option String → Option String
  | none => none
  | some s => if s = "" then none else some s

/-- Truthiness of `sg_item.config.get("vpc_id", None)`. -/
def vpcSet (item : SGItem) : Bool := (truthy item.vpc_id).isSome

/-- `_check_empty_security_group`: severity multiplier 0 for an unattached
item when `SECURITYGROUP_INSTANCE_DETAIL` is SUMMARY or FULL, else 1. -/
def _check_empty_security_group (mode : Option String) (item : SGItem) : Nat :=
  if (mode = some "SUMMARY" ∨ mode = some "FULL") ∧ item.assigned_to = false then 0 else 1

/-- `_check_rfc_1918`: is the CIDR inside one of the three RFC-1918 blocks.
The argument is parsed first; a parse failure raises. -/
def _check_rfc_1918 (cidr : String) : Option Bool :=
  match parseIPNetwork cidr, parseIPNetwork "10.0.0.0/8",
        parseIPNetwork "172.16.0.0/12", parseIPNetwork "192.168.0.0/16" with
  | some n, some a, some b, some c =>
    some (netContains a n || netContains b n || netContains c n)
  | _, _, _, _ => none

/-- `_check_inclusion_in_network_whitelist`: linear scan; the probe CIDR is
parsed inside the loop, so an empty whitelist never parses it. -/
def _check_inclusion_in_network_whitelist (wl : List String) (cidr : String) : Option Bool :=
  match wl with
  | [] => some false
  | e :: rest =>
    match parseIPNetwork cidr with
    | none => none
    | some cn =>
      match parseIPNetwork e with
      | none => none
      | some en =>
        if netContains en cn then some true
        else _check_inclusion_in_network_whitelist rest cidr

/-- `__port_for_rule__`: "proto port" for a single port, "proto from-to"
otherwise. -/
def port_for_rule (r : Rule) : String :=
  if r.from_port = r.to_port then r.ip_protocol ++ " " ++ toString r.from_port
  else r.ip_protocol ++ " " ++ toString r.from_port ++ "-" ++ toString r.to_port

example : port_for_rule ⟨"tcp", 443, 443, some "0.0.0.0/0", none, some "ingress"⟩ = "tcp 443" := by decide
example : parseIPNetwork "10.0.0.0/8" = some ⟨167772160, 8⟩ := by decide
example : parseIPNetwork "garbage" = none := by decide
example : _check_rfc_1918 "10.1.2.3/32" = some true := by decide
example : _check_rfc_1918 "0.0.0.0/0" = some false := by decide

/-- `int(cidr.split('/')[1])`: the mask length as the checks that split the
string by hand compute it. -/
def maskOf (cidr : String) : Option Int :=
  match (pySplit '/' cidr).get? 1 with
  | some s => pyInt s
  | none => none

/-- `'/' in cidr`: the split has more than one field exactly when a slash
occurs. -/
def hasSlash (cidr : String) : Bool := decide ((pySplit '/' cidr).length ≠ 1)

/-- Runs a per-rule body over the rules in order, concatenating the findings;
an exception in any rule aborts the whole check. -/
def collectRules (f : Rule → Option (List Finding)) : List Rule → Option (List Finding)
  | [] => some []
  | r :: rs =>
    match f r with
    | none => none
    | some fs =>
      match collectRules f rs with
      | none => none
      | some rest => some (fs ++ rest)

/-- Loop body of `check_securitygroup_ec2_rfc1918`. -/
def rfc1918_rule (mult : Nat) (r : Rule) : Option (List Finding) :=
  match truthy r.cidr_ip with
  | none => some []
  | some cidr =>
    match _check_rfc_1918 cidr with
    | none => none
    | some true =>
      some [⟨5 * mult, "Non-VPC Security Group contains private RFC-1918 CIDR", some cidr⟩]
    | some false => some []

/-- `check_securitygroup_ec2_rfc1918`: RFC-1918 CIDRs on a non-VPC group. -/
def check_securitygroup_ec2_rfc1918 (mode : Option String) (item : SGItem) :
    Option (List Finding) :=
  if vpcSet item then some []
  else collectRules (rfc1918_rule (_check_empty_security_group mode item)) item.rules

/-- `check_securitygroup_rule_count`: a single finding when the group has 50
or more rules. -/
def check_securitygroup_rule_count (mode : Option String) (item : SGItem) :
    Option (List Finding) :=
  let mult := _check_empty_security_group mode item
  if 50 ≤ item.rules.length then
    some [⟨1 * mult, "Security Group contains 50 or more rules", none⟩]
  else some []

/-- The name used in a large-port-range note: the rule's CIDR when truthy,
else its named peer, else "Unknown". -/
def ruleName (r : Rule) : String :=
  match truthy r.cidr_ip with
  | some c => c
  | none => r.name.getD "Unknown"

/-- Loop body of `check_securitygroup_large_port_range`. -/
def large_port_range_rule (mult : Nat) (r : Rule) : Option (List Finding) :=
  if r.from_port = r.to_port then some []
  else
    let size := r.to_port - r.from_port
    let note := ruleName r ++ " on " ++ port_for_rule r
    if 2500 < size then some [⟨4 * mult, "Port Range > 2500 Ports", some note⟩]
    else if 750 < size then some [⟨3 * mult, "Port Range > 750 Ports", some note⟩]
    else if 250 < size then some [⟨1 * mult, "Port Range > 250 Ports", some note⟩]
    else some []

/-- `check_securitygroup_large_port_range`. -/
def check_securitygroup_large_port_range (mode : Option String) (item : SGItem) :
    Option (List Finding) :=
  collectRules (large_port_range_rule (_check_empty_security_group mode item)) item.rules

/-- The branch structure of `check_securitygroup_large_port_range` as a
stand-alone classifier: which severity bucket a port span falls in. -/
inductive Bucket
  | b4
  | b3
  | b1
deriving DecidableEq

def classify (fromPort toPort : Int) : Option Bucket :=
  if fromPort = toPort then none
  else
    let size := toPort - fromPort
    if 2500 < size then some Bucket.b4
    else if 750 < size then some Bucket.b3
    else if 250 < size then some Bucket.b1
    else none

/-- Loop body of `check_securitygroup_large_subnet`. -/
def large_subnet_rule (mult : Nat) (wl : List String) (r : Rule) : Option (List Finding) :=
  match truthy r.cidr_ip with
  | none => some []
  | some cidr =>
    match _check_inclusion_in_network_whitelist wl cidr with
    | none => none
    | some true => some []
    | some false =>
      if hasSlash cidr = true ∧ cidr ≠ "0.0.0.0/0" ∧ cidr ≠ "10.0.0.0/8" then
        match maskOf cidr with
        | none => none
        | some mask =>
          if mask < 24 ∧ 0 < mask then
            some [⟨3 * mult, "Security Group network larger than /24",
                   some (cidr ++ " on " ++ port_for_rule r)⟩]
          else some []
      else some []

/-- `check_securitygroup_large_subnet`: non-whitelisted networks wider than
/24. -/
def check_securitygroup_large_subnet (mode : Option String) (wl : List String)
    (item : SGItem) : Option (List Finding) :=
  collectRules (large_subnet_rule (_check_empty_security_group mode item) wl) item.rules

/-- Loop body of `check_securitygroup_zero_subnet`. -/
def zero_subnet_rule (mult : Nat) (r : Rule) : Option (List Finding) :=
  match truthy r.cidr_ip with
  | none => some []
  | some cidr =>
    if hasSlash cidr = true ∧ cidr ≠ "0.0.0.0/0" ∧ cidr ≠ "10.0.0.0/8" then
      match maskOf cidr with
      | none => none
      | some mask =>
        if mask = 0 then
          some [⟨10 * mult, "Security Group subnet mask is /0",
                 some (cidr ++ " on " ++ port_for_rule r)⟩]
        else some []
    else some []

/-- `check_securitygroup_zero_subnet`. -/
def check_securitygroup_zero_subnet (mode : Option String) (item : SGItem) :
    Option (List Finding) :=
  collectRules (zero_subnet_rule (_check_empty_security_group mode item)) item.rules

/-- Loop body of `check_securitygroup_any`: exact string comparison with
"0.0.0.0/0". -/
def any_rule (mult : Nat) (r : Rule) : Option (List Finding) :=
  if r.cidr_ip = some "0.0.0.0/0" then
    some [⟨5 * mult, "Security Group contains 0.0.0.0/0",
           some ("0.0.0.0/0" ++ " on " ++ port_for_rule r)⟩]
  else some []

/-- `check_securitygroup_any`. -/
def check_securitygroup_any (mode : Option String) (item : SGItem) :
    Option (List Finding) :=
  collectRules (any_rule (_check_empty_security_group mode item)) item.rules

/-- Loop body of `check_securitygroup_ingress_any`. -/
def ingress_any_rule (mult : Nat) (r : Rule) : Option (List Finding) :=
  if r.cidr_ip = some "0.0.0.0/0" ∧ r.rule_type = some "ingress" then
    some [⟨10 * mult, "Security Group ingress rule contains 0.0.0.0/0",
           some ("0.0.0.0/0" ++ " on " ++ port_for_rule r)⟩]
  else some []

/-- `check_securitygroup_ingress_any`. -/
def check_securitygroup_ingress_any (mode : Option String) (item : SGItem) :
    Option (List Finding) :=
  collectRules (ingress_any_rule (_check_empty_security_group mode item)) item.rules

/-- Loop body of `check_securitygroup_egress_any`. -/
def egress_any_rule (mult : Nat) (r : Rule) : Option (List Finding) :=
  if r.cidr_ip = some "0.0.0.0/0" ∧ r.rule_type = some "egress" then
    some [⟨5 * mult, "Security Group egress rule contains 0.0.0.0/0",
           some ("0.0.0.0/0" ++ " on " ++ port_for_rule r)⟩]
  else some []

/-- `check_securitygroup_egress_any`. -/
def check_securitygroup_egress_any (mode : Option String) (item : SGItem) :
    Option (List Finding) :=
  collectRules (egress_any_rule (_check_empty_security_group mode item)) item.rules

/-- Loop body of `check_securitygroup_10net`: exact string comparison with
"10.0.0.0/8". -/
def tennet_rule (mult : Nat) (r : Rule) : Option (List Finding) :=
  if r.cidr_ip = some "10.0.0.0/8" then
    some [⟨5 * mult, "Security Group contains 10.0.0.0/8",
           some ("10.0.0.0/8" ++ " on " ++ port_for_rule r)⟩]
  else some []

/-- `check_securitygroup_10net`: skipped for VPC groups. -/
def check_securitygroup_10net (mode : Option String) (item : SGItem) :
    Option (List Finding) :=
  if vpcSet item then some []
  else collectRules (tennet_rule (_check_empty_security_group mode item)) item.rules

/-- Sequencing of two check results: findings concatenate; an exception in
either aborts the item. -/
def optCat (a b : Option (List Finding)) : Option (List Finding) :=
  match a, b with
  | some x, some y => some (x ++ y)
  | _, _ => none

/-- Modelled from the spec: the per-item AuditEngine driver (the `Auditor`
base-class loop, which is not part of the audited module) runs the nine
catalog checks in their declaration order and merges their findings in that
order. -/
def auditItem (mode : Option String) (wl : List String) (item : SGItem) :
    Option (List Finding) :=
  optCat (check_securitygroup_ec2_rfc1918 mode item)
    (optCat (check_securitygroup_rule_count mode item)
      (optCat (check_securitygroup_large_port_range mode item)
        (optCat (check_securitygroup_large_subnet mode wl item)
          (optCat (check_securitygroup_zero_subnet mode item)
            (optCat (check_securitygroup_any mode item)
              (optCat (check_securitygroup_ingress_any mode item)
                (optCat (check_securitygroup_egress_any mode item)
                  (check_securitygroup_10net mode item))))))))

/-- Containment of a CIDR in some whitelist entry, stated directly by address
ranges (the specification's reading of "whitelisted"). -/
def whitelistedSem (wl : List String) (c : String) : Bool :=
  wl.any (fun e =>
    match parseIPNetwork e, parseIPNetwork c with
    | some en, some cn => netContains en cn
    | _, _ => false)

/-- The OversizedSubnet firing condition as the specification words it: CIDR
not whitelisted, not one of the two exempt literals, and a parsed mask length
strictly between 0 and 24. -/
def oversizedSpec (wl : List String) (c : String) : Bool :=
  !(whitelistedSem wl c) && !(c = "0.0.0.0/0" : Bool) && !(c = "10.0.0.0/8" : Bool) &&
    (match maskOf c with
     | some m => decide (0 < m) && decide (m < 24)
     | none => false)

/-- Severity erasure: the same finding with score 0. -/
def zeroScore (f : Finding) : Finding := ⟨0, f.tag, f.notes⟩

example :
    auditItem none [] ⟨none, true, [⟨"tcp", 443, 443, some "0.0.0.0/0", none, some "ingress"⟩]⟩ =
      some [⟨5, "Security Group contains 0.0.0.0/0", some "0.0.0.0/0 on tcp 443"⟩,
            ⟨10, "Security Group ingress rule contains 0.0.0.0/0", some "0.0.0.0/0 on tcp 443"⟩] := by
  decide

example : classify 443 3000 = some Bucket.b4 := by decide
example : classify 0 2500 = some Bucket.b3 := by decide
example : maskOf "1.2.3.4/0" = some 0 := by decide

/-! ## Helper lemmas -/

/-- Without a configured reporting mode the multiplier is always 1. -/
theorem mult_none (item : SGItem) : _check_empty_security_group none item = 1 := by
  unfold _check_empty_security_group
  rw [if_neg]
  rintro ⟨h, _⟩
  rcases h with h | h <;> simp_all

/-- A per-rule exception aborts the whole check. -/
theorem collectRules_none (f : Rule → Option (List Finding)) (rs : List Rule)
    (h : ∃ r ∈ rs, f r = none) : collectRules f rs = none := by
  induction rs with
  | nil => simp at h
  | cons r rest ih =>
    rcases h with ⟨x, hx, hfx⟩
    rcases List.mem_cons.mp hx with rfl | hx2
    · simp [collectRules, hfx]
    · unfold collectRules
      rw [ih ⟨x, hx2, hfx⟩]
      cases f r <;> rfl

/-- If the per-rule bodies agree up to severity erasure, so do the checks. -/
theorem collectRules_zero (f g : Rule → Option (List Finding))
    (h : ∀ r, f r = Option.map (List.map zeroScore) (g r)) (rs : List Rule) :
    collectRules f rs = Option.map (List.map zeroScore) (collectRules g rs) := by
  induction rs with
  | nil => simp [collectRules]
  | cons r rest ih =>
    cases hg : g r <;> cases hc : collectRules g rest <;>
      simp_all [collectRules, h r, List.map_append]

/-! ## C1 -/

/-- C1: `_check_empty_security_group` returns 0 exactly when the reporting
mode is SUMMARY or FULL and the item is not in use; in every other case
(including no or an unrecognized mode) it returns 1, so its value is always
0 or 1. -/
theorem C1_compute_multiplier (mode : Option String) (item : SGItem) :
    (_check_empty_security_group mode item = 0 ↔
      ((mode = some "SUMMARY" ∨ mode = some "FULL") ∧ item.assigned_to = false)) ∧
    (_check_empty_security_group mode item = 1 ↔
      ¬((mode = some "SUMMARY" ∨ mode = some "FULL") ∧ item.assigned_to = false)) ∧
    (_check_empty_security_group mode item = 0 ∨ _check_empty_security_group mode item = 1) := by
  unfold _check_empty_security_group
  by_cases h : (mode = some "SUMMARY" ∨ mode = some "FULL") ∧ item.assigned_to = false <;>
    simp [h]

/-! ## C2 -/

/-- C2 counterexample: the claim says a port span of size exactly 2500 (and
750) classifies as no bucket, but the code falls through to the next strict
threshold: size 2500 lands in Bucket3 and size 750 in Bucket1. -/
theorem C2_boundary_counterexample :
    classify 0 2500 = some Bucket.b3 ∧ ¬classify 0 2500 = none ∧
    classify 0 750 = some Bucket.b1 ∧ ¬classify 0 750 = none := by decide

/-- C2 amended: first strict threshold wins and the buckets are mutually
exclusive; a span of size exactly 2500 falls to Bucket3 and size exactly 750
to Bucket1, while size exactly 250 and every non-positive size give no
bucket; the four quoted evaluations hold. -/
theorem C2_classify_amended :
    (∀ f t : Int,
      (f = t → classify f t = none) ∧
      (f ≠ t →
        ((classify f t = some Bucket.b4 ↔ 2500 < t - f) ∧
         (classify f t = some Bucket.b3 ↔ 750 < t - f ∧ t - f ≤ 2500) ∧
         (classify f t = some Bucket.b1 ↔ 250 < t - f ∧ t - f ≤ 750) ∧
         (classify f t = none ↔ t - f ≤ 250)))) ∧
    classify 443 3000 = some Bucket.b4 ∧ classify 443 1200 = some Bucket.b3 ∧
    classify 443 700 = some Bucket.b1 ∧ classify 443 600 = none ∧
    classify 0 250 = none ∧ classify 5 3 = none := by
  refine ⟨fun f t => ⟨fun h => by simp [classify, h], fun h => ?_⟩,
    by decide, by decide, by decide, by decide, by decide, by decide⟩
  unfold classify
  rw [if_neg h]
  dsimp only
  split_ifs with h1 h2 h3 <;> refine ⟨?_, ?_, ?_, ?_⟩ <;> simp_all <;> omega

/-- C2 amended witness at concrete inputs. -/
theorem C2_classify_amended_witness :
    classify 443 443 = none ∧ (classify 443 3000 = some Bucket.b4 ↔ 2500 < (3000 : Int) - 443) :=
  ⟨(C2_classify_amended.1 443 443).1 rfl, ((C2_classify_amended.1 443 3000).2 (by decide)).1⟩

/-! ## C5 -/

/-- The attached item with the single all-IPv4 ingress rule from the spec's
test property. -/
def item5 : SGItem := ⟨none, true, [⟨"tcp", 443, 443, some "0.0.0.0/0", none, some "ingress"⟩]⟩

/-- C5: on an attached item with one 0.0.0.0/0 ingress rule and no reporting
mode, the catalog yields exactly the AnyIPv4 finding (severity 5) and the
AnyIPv4Ingress finding (severity 10); every other check yields nothing. -/
theorem C5_any_and_ingress_both_fire :
    auditItem none [] item5 =
      some [⟨5, "Security Group contains 0.0.0.0/0", some "0.0.0.0/0 on tcp 443"⟩,
            ⟨10, "Security Group ingress rule contains 0.0.0.0/0", some "0.0.0.0/0 on tcp 443"⟩] ∧
    check_securitygroup_any none item5 =
      some [⟨5, "Security Group contains 0.0.0.0/0", some "0.0.0.0/0 on tcp 443"⟩] ∧
    check_securitygroup_ingress_any none item5 =
      some [⟨10, "Security Group ingress rule contains 0.0.0.0/0", some "0.0.0.0/0 on tcp 443"⟩] ∧
    check_securitygroup_egress_any none item5 = some [] ∧
    check_securitygroup_ec2_rfc1918 none item5 = some [] ∧
    check_securitygroup_rule_count none item5 = some [] ∧
    check_securitygroup_large_port_range none item5 = some [] ∧
    check_securitygroup_large_subnet none [] item5 = some [] ∧
    check_securitygroup_zero_subnet none item5 = some [] ∧
    check_securitygroup_10net none item5 = some [] := by decide

/-! ## C6 -/

/-- C6: an item whose VPC id is set (truthy) gets no findings from the
RFC-1918 check or the 10.0.0.0/8 check, whatever its rules. -/
theorem C6_vpc_exemption (mode : Option String) (item : SGItem)
    (h : vpcSet item = true) :
    check_securitygroup_ec2_rfc1918 mode item = some [] ∧
    check_securitygroup_10net mode item = some [] := by
  unfold check_securitygroup_ec2_rfc1918 check_securitygroup_10net
  simp [h]

/-- A VPC item carrying both private CIDRs the claim quotes. -/
def itemVpc : SGItem :=
  ⟨some "vpc-123", true,
   [⟨"tcp", 22, 22, some "10.0.0.0/8", none, some "ingress"⟩,
    ⟨"tcp", 22, 22, some "172.16.0.0/12", none, some "ingress"⟩]⟩

/-- C6 witness at a concrete VPC item. -/
theorem C6_vpc_exemption_witness :
    check_securitygroup_ec2_rfc1918 none itemVpc = some [] ∧
    check_securitygroup_10net none itemVpc = some [] :=
  C6_vpc_exemption none itemVpc (by decide)

/-! ## C9 -/

/-- C9: the rule-count check emits exactly one finding (base severity 1, no
notes) when the item has at least 50 rules, and none when it has fewer. -/
theorem C9_rule_count (mode : Option String) (item : SGItem) :
    (50 ≤ item.rules.length →
      check_securitygroup_rule_count mode item =
        some [⟨1 * _check_empty_security_group mode item,
               "Security Group contains 50 or more rules", none⟩]) ∧
    (item.rules.length < 50 →
      check_securitygroup_rule_count mode item = some []) := by
  constructor <;> intro h
  · simp [check_securitygroup_rule_count, h]
  · simp [check_securitygroup_rule_count, Nat.not_le.mpr h]

def ruleSmall : Rule := ⟨"tcp", 22, 22, none, none, some "ingress"⟩

def item50 : SGItem := ⟨none, true, List.replicate 50 ruleSmall⟩

def item49 : SGItem := ⟨none, true, List.replicate 49 ruleSmall⟩

/-- C9 witness: exactly 50 rules trigger the finding, 49 do not. -/
theorem C9_rule_count_witness :
    check_securitygroup_rule_count none item50 =
      some [⟨1, "Security Group contains 50 or more rules", none⟩] ∧
    check_securitygroup_rule_count none item49 = some [] :=
  ⟨(C9_rule_count none item50).1 (by decide), (C9_rule_count none item49).2 (by decide)⟩

/-! ## C3 -/

/-- A non-VPC item whose first rule has a malformed CIDR and whose second has
a well-formed private CIDR. -/
def badItem : SGItem :=
  ⟨none, true,
   [⟨"tcp", 22, 22, some "garbage", none, some "ingress"⟩,
    ⟨"tcp", 22, 22, some "10.0.0.0/8", none, some "ingress"⟩]⟩

/-- The same item without the malformed rule. -/
def goodItem : SGItem :=
  ⟨none, true, [⟨"tcp", 22, 22, some "10.0.0.0/8", none, some "ingress"⟩]⟩

/-- C3 counterexample: a malformed CIDR is not skipped.  With the malformed
rule present the RFC-1918 check raises (returns no finding list at all) and
the well-formed rule's finding is lost; without it the finding is produced.
The whitelist test likewise raises on a malformed probe CIDR. -/
theorem C3_counterexample :
    check_securitygroup_ec2_rfc1918 none badItem = none ∧
    check_securitygroup_ec2_rfc1918 none goodItem =
      some [⟨5, "Non-VPC Security Group contains private RFC-1918 CIDR", some "10.0.0.0/8"⟩] ∧
    _check_inclusion_in_network_whitelist ["10.0.0.0/8"] "garbage" = none := by decide

/-- C3 amended: a malformed truthy CIDR on any rule of a non-VPC item makes
the RFC-1918 check raise, producing no findings for that item (the
well-formed rules included); the whitelist-inclusion test raises on a
malformed CIDR whenever the whitelist is non-empty. -/
theorem C3_malformed_propagates :
    (∀ (mode : Option String) (item : SGItem), vpcSet item = false →
      (∃ r ∈ item.rules, ∃ c, truthy r.cidr_ip = some c ∧ parseIPNetwork c = none) →
      check_securitygroup_ec2_rfc1918 mode item = none) ∧
    (∀ (wl : List String) (c : String), wl ≠ [] → parseIPNetwork c = none →
      _check_inclusion_in_network_whitelist wl c = none) := by
  constructor
  · intro mode item hv hex
    unfold check_securitygroup_ec2_rfc1918
    rw [if_neg (by simp [hv])]
    apply collectRules_none
    rcases hex with ⟨r, hr, c, htr, hpc⟩
    refine ⟨r, hr, ?_⟩
    have h18 : _check_rfc_1918 c = none := by
      unfold _check_rfc_1918
      rw [hpc]
    simp [rfc1918_rule, htr, h18]
  · intro wl c hwl hpc
    cases wl with
    | nil => exact absurd rfl hwl
    | cons e rest =>
      unfold _check_inclusion_in_network_whitelist
      rw [hpc]

/-- C3 amended witness at the concrete malformed item. -/
theorem C3_malformed_propagates_witness :
    check_securitygroup_ec2_rfc1918 none badItem = none ∧
    _check_inclusion_in_network_whitelist ["192.168.0.0/16"] "garbage" = none :=
  ⟨C3_malformed_propagates.1 none badItem (by decide) (by decide),
   C3_malformed_propagates.2 ["192.168.0.0/16"] "garbage" (by decide) (by decide)⟩

/-! ## C10 -/

/-- A list whose second element exists has length other than one. -/
theorem length_ne_one_of_get1 {α : Type} (l : List α) (x : α)
    (h : l.get? 1 = some x) : l.length ≠ 1 := by
  match l with
  | [] => simp at h
  | [a] => simp at h
  | a :: b :: t => simp [List.length]

/-- C10: a rule whose CIDR parses its mask field as 0 without being the exact
string "0.0.0.0/0" gets the severity-10 zero-mask finding, while the three
exact-string 0.0.0.0/0 checks all ignore it. -/
theorem C10_zero_mask_vs_any (mult : Nat) (r : Rule) (c : String)
    (hc : r.cidr_ip = some c) (hm : maskOf c = some 0) (hne : c ≠ "0.0.0.0/0") :
    zero_subnet_rule mult r =
      some [⟨10 * mult, "Security Group subnet mask is /0",
             some (c ++ " on " ++ port_for_rule r)⟩] ∧
    any_rule mult r = some [] ∧
    ingress_any_rule mult r = some [] ∧
    egress_any_rule mult r = some [] := by
  have hcne : c ≠ "" := by
    intro he
    rw [he] at hm
    exact absurd hm (by decide)
  have hslash : hasSlash c = true := by
    unfold hasSlash
    unfold maskOf at hm
    cases hg : (pySplit '/' c).get? 1 with
    | none => rw [hg] at hm; simp at hm
    | some s => exact decide_eq_true (length_ne_one_of_get1 _ _ hg)
  have hten : c ≠ "10.0.0.0/8" := by
    intro he
    rw [he] at hm
    exact absurd hm (by decide)
  refine ⟨?_, ?_, ?_, ?_⟩
  · simp [zero_subnet_rule, hc, truthy, hcne, hslash, hne, hten, hm]
  · simp [any_rule, hc, hne]
  · simp [ingress_any_rule, hc, hne]
  · simp [egress_any_rule, hc, hne]

/-! ## C8 -/

/-- On parseable input the whitelist scan computes exactly range containment
in some entry. -/
theorem inclusion_eq_sem (c : String) (hc : (parseIPNetwork c).isSome = true) :
    ∀ wl : List String, (∀ e ∈ wl, (parseIPNetwork e).isSome = true) →
      _check_inclusion_in_network_whitelist wl c = some (whitelistedSem wl c) := by
  intro wl
  induction wl with
  | nil =>
    intro _
    simp [_check_inclusion_in_network_whitelist, whitelistedSem]
  | cons e rest ih =>
    intro hw
    obtain ⟨cn, hcn⟩ := Option.isSome_iff_exists.mp hc
    obtain ⟨en, hen⟩ := Option.isSome_iff_exists.mp (hw e (List.mem_cons_self e rest))
    have ihr := ih (fun x hx => hw x (List.mem_cons_of_mem e hx))
    unfold _check_inclusion_in_network_whitelist whitelistedSem
    rw [hcn, hen]
    by_cases hcont : netContains en cn = true
    · simp [hcont, whitelistedSem, hen, hcn]
    · dsimp only
      rw [if_neg hcont, ihr]
      simp [whitelistedSem, hen, hcn, hcont]

/-- C8: the whitelist test returns true exactly when the CIDR's range is
contained in at least one entry's range; any entry containing the CIDR makes
it true, and the empty whitelist always gives false. -/
theorem C8_whitelist_containment :
    (∀ (wl : List String) (c : String),
      (∀ e ∈ wl, (parseIPNetwork e).isSome = true) → (parseIPNetwork c).isSome = true →
      _check_inclusion_in_network_whitelist wl c = some (whitelistedSem wl c)) ∧
    (∀ (wl : List String) (c c2 : String) (cn c2n : IPNetwork),
      c2 ∈ wl → (∀ e ∈ wl, (parseIPNetwork e).isSome = true) →
      parseIPNetwork c = some cn → parseIPNetwork c2 = some c2n →
      netContains c2n cn = true →
      _check_inclusion_in_network_whitelist wl c = some true) ∧
    (∀ c : String, _check_inclusion_in_network_whitelist [] c = some false) := by
  refine ⟨fun wl c hw hc => inclusion_eq_sem c hc wl hw, ?_, fun c => rfl⟩
  intro wl c c2 cn c2n hmem hw hcn hc2n hcont
  rw [inclusion_eq_sem c (by simp [hcn]) wl hw]
  have : whitelistedSem wl c = true := by
    apply List.any_eq_true.mpr
    exact ⟨c2, hmem, by simp [hc2n, hcn, hcont]⟩
  rw [this]

/-- C8 witness: 10.1.0.0/16 is contained in the 10.0.0.0/8 whitelist entry. -/
theorem C8_whitelist_containment_witness :
    _check_inclusion_in_network_whitelist ["192.168.0.0/16", "10.0.0.0/8"] "10.1.0.0/16" =
      some true :=
  C8_whitelist_containment.2.1 ["192.168.0.0/16", "10.0.0.0/8"] "10.1.0.0/16" "10.0.0.0/8"
    ⟨167837696, 16⟩ ⟨167772160, 8⟩ (by decide) (by decide) (by decide) (by decide) (by decide)

/-! ## C4 -/

/-- A digit-only accepted string is also accepted with the sign allowed. -/
theorem pyInt_of_strNat (s : String) (p : Nat) (h : strNat s = some p) :
    pyInt s = some (p : Int) := by
  have hcond : s.data ≠ [] ∧ s.data.all (fun c => c.isDigit) = true := by
    have h2 := h
    unfold strNat at h2
    split at h2
    · simp_all
    · exact absurd h2 (by simp)
  have hnotdash : ¬s.data.head? = some '-' := by
    intro hh
    cases hdata : s.data with
    | nil => rw [hdata] at hh; exact Option.noConfusion hh
    | cons a t =>
      rw [hdata] at hh
      have ha : a = '-' := by simpa using hh
      have hall := hcond.2
      rw [hdata, ha] at hall
      simp [List.all_cons] at hall
  unfold pyInt
  rw [if_neg hnotdash, h]
  rfl

/-- A CIDR string the library parses either has no slash (then the by-hand
mask split raises) or has exactly one, and then the by-hand mask is the
parsed non-negative mask length. -/
theorem parse_shape (c : String) (h : (parseIPNetwork c).isSome = true) :
    (maskOf c = none ∧ hasSlash c = false) ∨
    (∃ m : Nat, maskOf c = some (m : Int) ∧ hasSlash c = true) := by
  unfold parseIPNetwork at h
  unfold maskOf hasSlash
  cases hs : pySplit '/' c with
  | nil => rw [hs] at h; simp at h
  | cons a t =>
    cases t with
    | nil =>
      left
      exact ⟨rfl, by simp⟩
    | cons b t2 =>
      cases t2 with
      | nil =>
        rw [hs] at h
        dsimp only at h
        cases hA : parseIPv4 a with
        | none => rw [hA] at h; simp at h
        | some addr =>
          cases hB : strNat b with
          | none => rw [hA, hB] at h; simp at h
          | some p =>
            right
            exact ⟨p, pyInt_of_strNat b p hB, by simp⟩
      | cons d t3 =>
        rw [hs] at h
        simp at h

/-- C4: on parseable input, OversizedSubnet fires for a rule exactly when the
rule's truthy CIDR is not range-contained in any whitelist entry, differs
from the literals "0.0.0.0/0" and "10.0.0.0/8", and its mask length is
strictly between 0 and 24; the finding carries base severity 3. -/
theorem C4_oversized_subnet (mult : Nat) (wl : List String) (r : Rule)
    (hw : ∀ e ∈ wl, (parseIPNetwork e).isSome = true)
    (hr : ∀ c, truthy r.cidr_ip = some c → (parseIPNetwork c).isSome = true) :
    large_subnet_rule mult wl r =
      some (match truthy r.cidr_ip with
            | none => []
            | some c =>
              if oversizedSpec wl c = true then
                [⟨3 * mult, "Security Group network larger than /24",
                  some (c ++ " on " ++ port_for_rule r)⟩]
              else []) := by
  unfold large_subnet_rule
  cases htr : truthy r.cidr_ip with
  | none => rfl
  | some c =>
    have hc := hr c htr
    dsimp only
    rw [inclusion_eq_sem c hc wl hw]
    unfold oversizedSpec
    cases hwl : whitelistedSem wl c with
    | true => simp
    | false =>
      dsimp only
      rcases parse_shape c hc with ⟨hm, hsl⟩ | ⟨m, hm, hsl⟩
      · simp [hm, hsl]
      · by_cases h0 : c = "0.0.0.0/0" <;> by_cases h10 : c = "10.0.0.0/8" <;>
          by_cases hlt1 : (m : Int) < 24 <;> by_cases hlt2 : (0 : Int) < (m : Int) <;>
          simp [hm, hsl, h0, h10, hlt1, hlt2]

def ruleWide : Rule := ⟨"tcp", 80, 80, some "10.10.0.0/16", none, some "ingress"⟩

/-- C4 witness: a /16 network outside the whitelist fires with severity 3. -/
theorem C4_oversized_subnet_witness :
    large_subnet_rule 1 ["192.168.0.0/16"] ruleWide =
      some [⟨3, "Security Group network larger than /24", some "10.10.0.0/16 on tcp 80"⟩] :=
  C4_oversized_subnet 1 ["192.168.0.0/16"] ruleWide (by decide) (by decide)

/-! ## C7 -/

theorem rfc1918_rule_zero (r : Rule) :
    rfc1918_rule 0 r = Option.map (List.map zeroScore) (rfc1918_rule 1 r) := by
  unfold rfc1918_rule
  cases truthy r.cidr_ip with
  | none => rfl
  | some c =>
    dsimp only
    cases _check_rfc_1918 c with
    | none => rfl
    | some b => cases b <;> simp [zeroScore]

theorem large_port_range_rule_zero (r : Rule) :
    large_port_range_rule 0 r = Option.map (List.map zeroScore) (large_port_range_rule 1 r) := by
  unfold large_port_range_rule
  by_cases h : r.from_port = r.to_port
  · simp [h]
  · simp only [if_neg h]
    split_ifs <;> simp [zeroScore]

theorem large_subnet_rule_zero (wl : List String) (r : Rule) :
    large_subnet_rule 0 wl r = Option.map (List.map zeroScore) (large_subnet_rule 1 wl r) := by
  unfold large_subnet_rule
  cases truthy r.cidr_ip with
  | none => rfl
  | some c =>
    dsimp only
    cases _check_inclusion_in_network_whitelist wl c with
    | none => rfl
    | some b =>
      cases b
      · dsimp only
        split_ifs with hcond
        · cases maskOf c with
          | none => rfl
          | some m =>
            dsimp only
            split_ifs <;> simp [zeroScore]
        · rfl
      · rfl

theorem zero_subnet_rule_zero (r : Rule) :
    zero_subnet_rule 0 r = Option.map (List.map zeroScore) (zero_subnet_rule 1 r) := by
  unfold zero_subnet_rule
  cases truthy r.cidr_ip with
  | none => rfl
  | some c =>
    dsimp only
    split_ifs with hcond
    · cases maskOf c with
      | none => rfl
      | some m =>
        dsimp only
        split_ifs <;> simp [zeroScore]
    · rfl

theorem any_rule_zero (r : Rule) :
    any_rule 0 r = Option.map (List.map zeroScore) (any_rule 1 r) := by
  unfold any_rule
  split_ifs <;> simp [zeroScore]

theorem ingress_any_rule_zero (r : Rule) :
    ingress_any_rule 0 r = Option.map (List.map zeroScore) (ingress_any_rule 1 r) := by
  unfold ingress_any_rule
  split_ifs <;> simp [zeroScore]

theorem egress_any_rule_zero (r : Rule) :
    egress_any_rule 0 r = Option.map (List.map zeroScore) (egress_any_rule 1 r) := by
  unfold egress_any_rule
  split_ifs <;> simp [zeroScore]

theorem tennet_rule_zero (r : Rule) :
    tennet_rule 0 r = Option.map (List.map zeroScore) (tennet_rule 1 r) := by
  unfold tennet_rule
  split_ifs <;> simp [zeroScore]

theorem check_ec2_rfc1918_zero (mode : Option String) (item : SGItem)
    (h0 : _check_empty_security_group mode item = 0) :
    check_securitygroup_ec2_rfc1918 mode item =
      Option.map (List.map zeroScore) (check_securitygroup_ec2_rfc1918 none item) := by
  unfold check_securitygroup_ec2_rfc1918
  rw [h0, mult_none]
  by_cases hv : vpcSet item
  · simp [hv]
  · simp only [hv, if_false, Bool.false_eq_true]
    exact collectRules_zero _ _ rfc1918_rule_zero item.rules

theorem check_rule_count_zero (mode : Option String) (item : SGItem)
    (h0 : _check_empty_security_group mode item = 0) :
    check_securitygroup_rule_count mode item =
      Option.map (List.map zeroScore) (check_securitygroup_rule_count none item) := by
  unfold check_securitygroup_rule_count
  rw [h0, mult_none]
  split_ifs <;> simp [zeroScore]

theorem check_large_port_range_zero (mode : Option String) (item : SGItem)
    (h0 : _check_empty_security_group mode item = 0) :
    check_securitygroup_large_port_range mode item =
      Option.map (List.map zeroScore) (check_securitygroup_large_port_range none item) := by
  unfold check_securitygroup_large_port_range
  rw [h0, mult_none]
  exact collectRules_zero _ _ large_port_range_rule_zero item.rules

theorem check_large_subnet_zero (mode : Option String) (wl : List String) (item : SGItem)
    (h0 : _check_empty_security_group mode item = 0) :
    check_securitygroup_large_subnet mode wl item =
      Option.map (List.map zeroScore) (check_securitygroup_large_subnet none wl item) := by
  unfold check_securitygroup_large_subnet
  rw [h0, mult_none]
  exact collectRules_zero _ _ (large_subnet_rule_zero wl) item.rules

theorem check_zero_subnet_zero (mode : Option String) (item : SGItem)
    (h0 : _check_empty_security_group mode item = 0) :
    check_securitygroup_zero_subnet mode item =
      Option.map (List.map zeroScore) (check_securitygroup_zero_subnet none item) := by
  unfold check_securitygroup_zero_subnet
  rw [h0, mult_none]
  exact collectRules_zero _ _ zero_subnet_rule_zero item.rules

theorem check_any_zero (mode : Option String) (item : SGItem)
    (h0 : _check_empty_security_group mode item = 0) :
    check_securitygroup_any mode item =
      Option.map (List.map zeroScore) (check_securitygroup_any none item) := by
  unfold check_securitygroup_any
  rw [h0, mult_none]
  exact collectRules_zero _ _ any_rule_zero item.rules

theorem check_ingress_any_zero (mode : Option String) (item : SGItem)
    (h0 : _check_empty_security_group mode item = 0) :
    check_securitygroup_ingress_any mode item =
      Option.map (List.map zeroScore) (check_securitygroup_ingress_any none item) := by
  unfold check_securitygroup_ingress_any
  rw [h0, mult_none]
  exact collectRules_zero _ _ ingress_any_rule_zero item.rules

theorem check_egress_any_zero (mode : Option String) (item : SGItem)
    (h0 : _check_empty_security_group mode item = 0) :
    check_securitygroup_egress_any mode item =
      Option.map (List.map zeroScore) (check_securitygroup_egress_any none item) := by
  unfold check_securitygroup_egress_any
  rw [h0, mult_none]
  exact collectRules_zero _ _ egress_any_rule_zero item.rules

theorem check_10net_zero (mode : Option String) (item : SGItem)
    (h0 : _check_empty_security_group mode item = 0) :
    check_securitygroup_10net mode item =
      Option.map (List.map zeroScore) (check_securitygroup_10net none item) := by
  unfold check_securitygroup_10net
  rw [h0, mult_none]
  by_cases hv : vpcSet item
  · simp [hv]
  · simp only [hv, if_false, Bool.false_eq_true]
    exact collectRules_zero _ _ tennet_rule_zero item.rules

theorem optCat_zero (a b a2 b2 : Option (List Finding))
    (ha : a = Option.map (List.map zeroScore) a2)
    (hb : b = Option.map (List.map zeroScore) b2) :
    optCat a b = Option.map (List.map zeroScore) (optCat a2 b2) := by
  subst ha hb
  cases a2 <;> cases b2 <;> simp [optCat, List.map_append]

/-- C7: with multiplier 0 (SUMMARY or FULL reporting and an unattached item)
the catalog produces exactly the findings of the multiplier-1 run with every
severity replaced by 0: same count, same tags, same notes, same order. -/
theorem C7_multiplier_zero (mode : Option String) (wl : List String) (item : SGItem)
    (hmode : mode = some "SUMMARY" ∨ mode = some "FULL")
    (hatt : item.assigned_to = false) :
    auditItem mode wl item = Option.map (List.map zeroScore) (auditItem none wl item) := by
  have h0 : _check_empty_security_group mode item = 0 := by
    unfold _check_empty_security_group
    rw [if_pos ⟨hmode, hatt⟩]
  unfold auditItem
  exact optCat_zero _ _ _ _ (check_ec2_rfc1918_zero mode item h0)
    (optCat_zero _ _ _ _ (check_rule_count_zero mode item h0)
      (optCat_zero _ _ _ _ (check_large_port_range_zero mode item h0)
        (optCat_zero _ _ _ _ (check_large_subnet_zero mode wl item h0)
          (optCat_zero _ _ _ _ (check_zero_subnet_zero mode item h0)
            (optCat_zero _ _ _ _ (check_any_zero mode item h0)
              (optCat_zero _ _ _ _ (check_ingress_any_zero mode item h0)
                (optCat_zero _ _ _ _ (check_egress_any_zero mode item h0)
                  (check_10net_zero mode item h0))))))))

/-- An unattached item with one all-IPv4 ingress rule. -/
def itemU : SGItem := ⟨none, false, [⟨"tcp", 443, 443, some "0.0.0.0/0", none, some "ingress"⟩]⟩

/-- C7 witness: FULL reporting on the unattached item zeroes the severities
of the same findings the NONE-mode run produces. -/
theorem C7_multiplier_zero_witness :
    auditItem (some "FULL") [] itemU =
      Option.map (List.map zeroScore) (auditItem none [] itemU) :=
  C7_multiplier_zero (some "FULL") [] itemU (Or.inr rfl) rfl

/-- C10 witness at the CIDR "1.2.3.4/0". -/
theorem C10_zero_mask_vs_any_witness :
    zero_subnet_rule 1 ⟨"tcp", 80, 80, some "1.2.3.4/0", none, some "ingress"⟩ =
      some [⟨10, "Security Group subnet mask is /0", some "1.2.3.4/0 on tcp 80"⟩] ∧
    any_rule 1 ⟨"tcp", 80, 80, some "1.2.3.4/0", none, some "ingress"⟩ = some [] ∧
    ingress_any_rule 1 ⟨"tcp", 80, 80, some "1.2.3.4/0", none, some "ingress"⟩ = some [] ∧
    egress_any_rule 1 ⟨"tcp", 80, 80, some "1.2.3.4/0", none, some "ingress"⟩ = some [] :=
  C10_zero_mask_vs_any 1 ⟨"tcp", 80, 80, some "1.2.3.4/0", none, some "ingress"⟩
    "1.2.3.4/0" rfl (by decide) (by decide)

end SecMonkey
